import Mathlib

/-
Verification of the s3_rocksdb_benchmark harness (src/rocksbench.py and
src/s3bench.py) against its natural-language specification.

The arithmetic of both scripts is embedded over ℚ.  Python's `round(x, 5)`
is modelled as round-half-to-even at five fractional digits (`round5`);
Python's `/`, which raises `ZeroDivisionError` on a zero divisor, is
modelled as the fallible `pydiv` returning `Except PyError ℚ`.  Wall-clock
readings and the results returned by the concurrent read tasks are opaque
inputs of the environment, so the per-pass benchmark bodies take them as
parameters and compute exactly the metric expressions of the source.
-/

/-- Round half to even to an integer, the rounding mode of Python's
`round` builtin, idealized over ℚ. -/
def rhe (q : ℚ) : ℤ :=
  if q - ⌊q⌋ < 1/2 then ⌊q⌋
  else if 1/2 < q - ⌊q⌋ then ⌊q⌋ + 1
  else if ⌊q⌋ % 2 = 0 then ⌊q⌋ else ⌊q⌋ + 1

/-- Python's `round(x, 5)`: round half to even at 5 fractional digits. -/
def round5 (q : ℚ) : ℚ := ((rhe (q * 100000) : ℤ) : ℚ) / 100000

/-- The error conditions of the embedded arithmetic: Python raises
`ZeroDivisionError` when the divisor of `/` is zero. -/
inductive PyError where
  | zeroDivision
  deriving DecidableEq

/-- Python's `/` on numbers: fails with `ZeroDivisionError` on a zero
divisor, otherwise exact rational division. -/
def pydiv (a b : ℚ) : Except PyError ℚ :=
  if b = 0 then .error .zeroDivision else .ok (a / b)

/-- One concurrent read task's outcome: `(len(data), latency)` as returned
by `read_file` in both scripts. -/
structure ReadResult where
  dataLen : ℕ
  latency : ℚ
  deriving DecidableEq

/-- The four per-SizeClass metrics returned by one benchmark pass. -/
structure PassMetrics where
  uploadTime : ℚ
  writeThroughput : ℚ
  readThroughput : ℚ
  avgLatency : ℚ
  deriving DecidableEq

/-- `NUM_THREADS = 5` in both scripts. -/
def NUM_THREADS : ℕ := 5

/-- `FILE_SIZES_MB = [60, 100, 140, 180, 220]` in both scripts. -/
def FILE_SIZES_MB : List ℕ := [60, 100, 140, 180, 220]

/-- `FILE_COUNT = 5` in both scripts. -/
def FILE_COUNT : ℕ := 5

/-- The metric computation of `benchmark_rocksdb` (src/rocksbench.py,
lines 18-59) for one file size.  `t` is the raw elapsed wall time of the
write loop and `rds` the list of `(len(data), latency)` pairs returned by
the threaded read phase.  The source rounds the upload time to 5 decimals
and uses the rounded value as the divisor of both throughputs; the three
derived metrics are rounded to 5 decimals after conversion to MB/s. -/
def benchmark_rocksdb (file_size_mb : ℕ) (t : ℚ) (rds : List ReadResult) :
    Except PyError PassMetrics :=
  let DATA_SIZE := file_size_mb * 1024 * 1024
  let upload_time := round5 t
  match pydiv ((FILE_COUNT * DATA_SIZE : ℕ) : ℚ) upload_time with
  | .error e => .error e
  | .ok write_throughput =>
    match pydiv (((rds.map ReadResult.dataLen).sum : ℕ) : ℚ) upload_time with
    | .error e => .error e
    | .ok read_throughput =>
      match pydiv ((rds.map ReadResult.latency).sum) ((rds.length : ℕ) : ℚ) with
      | .error e => .error e
      | .ok avg_latency =>
        .ok ⟨upload_time, round5 (write_throughput / 1024 / 1024),
             round5 (read_throughput / 1024 / 1024), round5 avg_latency⟩

/-- The metric computation of one pass of the `for file_size_mb in
FILE_SIZES_MB` loop of `benchmark_s3` (src/s3bench.py, lines 44-109).
The raw elapsed time is used unrounded both as the recorded upload time
and as the divisor of both throughputs; no metric is rounded before being
appended (the `:.5f` formatting applies only to `print` output). -/
def benchmark_s3_pass (file_size_mb : ℕ) (t : ℚ) (rds : List ReadResult) :
    Except PyError PassMetrics :=
  let data_size := file_size_mb * 1024 * 1024
  match pydiv ((FILE_COUNT * data_size : ℕ) : ℚ) t with
  | .error e => .error e
  | .ok write_throughput =>
    match pydiv (((rds.map ReadResult.dataLen).sum : ℕ) : ℚ) t with
    | .error e => .error e
    | .ok read_throughput =>
      match pydiv ((rds.map ReadResult.latency).sum) ((rds.length : ℕ) : ℚ) with
      | .error e => .error e
      | .ok avg_latency =>
        .ok ⟨t, write_throughput / 1024 / 1024,
             read_throughput / 1024 / 1024, avg_latency⟩

/-- The four parallel result lists built by `run_benchmarks`
(src/rocksbench.py, lines 61-76). -/
structure MetricSeries where
  upload_times : List ℚ
  write_throughputs : List ℚ
  read_throughputs : List ℚ
  avg_latencies : List ℚ
  deriving DecidableEq

/-- The `results` dict of `benchmark_s3` (src/s3bench.py, lines 35-41):
five parallel lists, one entry appended per file size. -/
structure S3Results where
  file_size : List ℕ
  upload_time : List ℚ
  write_throughput : List ℚ
  read_throughput : List ℚ
  avg_latency : List ℚ
  deriving DecidableEq

/-- The `for file_size in FILE_SIZES_MB` loop of `run_benchmarks`
(src/rocksbench.py, lines 67-73), processing the size list from position
`k` on.  `env k` supplies the raw elapsed write time and the read results
of the `k`-th pass.  An exception in any pass aborts the whole run, so the
partially built lists are discarded. -/
def run_benchmarks_from (env : ℕ → ℚ × List ReadResult) :
    ℕ → List ℕ → Except PyError MetricSeries
  | _, [] => .ok ⟨[], [], [], []⟩
  | k, sz :: rest =>
    match benchmark_rocksdb sz (env k).1 (env k).2 with
    | .error e => .error e
    | .ok m =>
      match run_benchmarks_from env (k + 1) rest with
      | .error e => .error e
      | .ok ms =>
        .ok ⟨m.uploadTime :: ms.upload_times,
             m.writeThroughput :: ms.write_throughputs,
             m.readThroughput :: ms.read_throughputs,
             m.avgLatency :: ms.avg_latencies⟩

/-- `run_benchmarks` of src/rocksbench.py: one pass per configured size,
in configuration order. -/
def run_benchmarks (env : ℕ → ℚ × List ReadResult) :
    Except PyError MetricSeries :=
  run_benchmarks_from env 0 FILE_SIZES_MB

/-- The measurement loop of `benchmark_s3` (src/s3bench.py, lines 44-109)
from position `k` of the size list on, appending one entry to each of the
five result lists per pass. -/
def benchmark_s3_from (env : ℕ → ℚ × List ReadResult) :
    ℕ → List ℕ → Except PyError S3Results
  | _, [] => .ok ⟨[], [], [], [], []⟩
  | k, sz :: rest =>
    match benchmark_s3_pass sz (env k).1 (env k).2 with
    | .error e => .error e
    | .ok m =>
      match benchmark_s3_from env (k + 1) rest with
      | .error e => .error e
      | .ok rs =>
        .ok ⟨sz :: rs.file_size,
             m.uploadTime :: rs.upload_time,
             m.writeThroughput :: rs.write_throughput,
             m.readThroughput :: rs.read_throughput,
             m.avgLatency :: rs.avg_latency⟩

/-- The measurement loop of `benchmark_s3` over the configured sizes. -/
def benchmark_s3 (env : ℕ → ℚ × List ReadResult) :
    Except PyError S3Results :=
  benchmark_s3_from env 0 FILE_SIZES_MB

/-- `part_size = 5 * 1024 * 1024` in `multipart_upload`
(src/s3bench.py, line 63). -/
def part_size : ℕ := 5 * 1024 * 1024

/-- `num_parts = len(data) // part_size + (1 if len(data) % part_size != 0
else 0)` (src/s3bench.py, line 64). -/
def num_parts (len ps : ℕ) : ℕ :=
  len / ps + (if len % ps ≠ 0 then 1 else 0)

/-- `part_data_list = [data[i*part_size:(i+1)*part_size] for i in
range(num_parts)]` (src/s3bench.py, line 65): Python's slice
`data[a:b]` is `(data.drop a).take (b - a)`. -/
def part_data_list (data : List ℕ) (ps : ℕ) : List (List ℕ) :=
  (List.range (num_parts data.length ps)).map
    (fun i => (data.drop (i * ps)).take ps)

/-- The receipt returned by `upload_part` (src/s3bench.py, lines 48-57):
`{'PartNumber': part_number, 'ETag': part['ETag']}`.  ETags are opaque. -/
structure PartReceipt where
  partNumber : ℕ
  eTag : ℕ
  deriving DecidableEq

/-- `upload_part(file_name, part_number, part_data, upload_id)` returns the
receipt carrying its own part number and the backend's ETag for it. -/
def upload_part (etag : ℕ → ℕ) (part_number : ℕ) : PartReceipt :=
  ⟨part_number, etag part_number⟩

/-- The futures submitted to the pool in `multipart_upload`
(src/s3bench.py, lines 67-71), keyed by submission index: future `i`
computes `upload_part(file_name, i + 1, part_data_list[i], upload_id)`. -/
def submitted_futures (n : ℕ) (etag : ℕ → ℕ) : List (ℕ × PartReceipt) :=
  (List.range n).map (fun i => (i, upload_part etag (i + 1)))

/-- `future.result()` for the future with submission index `i`: retrieves
that future's value from the executor's completion log, whatever order the
log was filled in. -/
def future_result (log : List (ℕ × PartReceipt)) (i : ℕ) : Option PartReceipt :=
  (log.find? (fun p => p.1 == i)).map Prod.snd

/-- `for future in futures: parts.append(future.result())`
(src/s3bench.py, lines 72-73): results are gathered in submission order,
not completion order. -/
def gathered_parts (n : ℕ) (log : List (ℕ × PartReceipt)) :
    List (Option PartReceipt) :=
  (List.range n).map (future_result log)

/-- How a payload reaches the object store: a plain `put_object`, or a
multipart upload with the given number of parts. -/
inductive UploadMethod where
  | singlePut
  | multipart (numParts : ℕ)
  deriving DecidableEq

/-- The upload path taken by the write loop of `benchmark_s3`
(src/s3bench.py, lines 84-86): every file is written via
`multipart_upload(file)`, unconditionally; the script contains no
non-multipart `put_object` call at all. -/
def s3_put_method (dataLen : ℕ) : UploadMethod :=
  .multipart (num_parts dataLen part_size)

/-- The externally visible steps of one benchmark pass, in program order:
key generation, payload generation, the timer reads, the store calls. -/
inductive BenchStep where
  | genKey
  | genPayload
  | startTimer
  | put
  | stopTimer
  | createMPU
  | uploadPart
  | completeMPU
  deriving DecidableEq

/-- True away from `startTimer`; used to split a trace at the moment
`start_time = time.time()` executes. -/
def isNotStart (a : BenchStep) : Bool :=
  match a with
  | .startTimer => false
  | _ => true

/-- The prefix of a trace before the write start timestamp is taken. -/
def beforeTimer (tr : List BenchStep) : List BenchStep := tr.takeWhile isNotStart

/-- The suffix of a trace from the write start timestamp on: everything
here contributes to the measured `upload_time`. -/
def timedSuffix (tr : List BenchStep) : List BenchStep := tr.dropWhile isNotStart

/-- The step sequence of the write phase of `benchmark_rocksdb`
(src/rocksbench.py, lines 24-32) with `n` files: the key list is built
first, then the timer starts, and the loop body `db[file] =
generate_test_data(DATA_SIZE)` generates each payload inside the timed
region, just before its put. -/
def rocksWriteTrace (n : ℕ) : List BenchStep :=
  List.replicate n BenchStep.genKey ++ [BenchStep.startTimer] ++
    (List.replicate n [BenchStep.genPayload, BenchStep.put]).flatten ++
    [BenchStep.stopTimer]

/-- The step sequence of one `multipart_upload(file_name)` call
(src/s3bench.py, lines 59-80): the multipart upload is created, then
`data = generate_test_data(data_size)` runs, then the parts upload and
the transfer is finalized. -/
def s3FileTrace (np : ℕ) : List BenchStep :=
  [BenchStep.createMPU, BenchStep.genPayload] ++
    List.replicate np BenchStep.uploadPart ++ [BenchStep.completeMPU]

/-- The step sequence of the write phase of one `benchmark_s3` pass
(src/s3bench.py, lines 45-88) with `n` files of `np` parts each: keys are
generated before the timer starts, but each `multipart_upload` call -
payload generation included - runs inside the timed region. -/
def s3WriteTrace (n np : ℕ) : List BenchStep :=
  List.replicate n BenchStep.genKey ++ [BenchStep.startTimer] ++
    (List.replicate n (s3FileTrace np)).flatten ++ [BenchStep.stopTimer]

/-- `os.urandom(size)` (the body of `generate_test_data` in both scripts):
exactly `size` bytes drawn from the entropy source `e`. -/
def generate_test_data (e : ℕ → ℕ) (size : ℕ) : List ℕ :=
  (List.range size).map (fun i => e i % 256)

/-- `[str(uuid.uuid4()) for _ in range(count)]` (both scripts): each key is
a fresh uuid4, i.e. 122 random bits from the entropy source; nothing in
the code enforces that two draws differ. -/
def gen_uuid_keys (e : ℕ → ℕ) (count : ℕ) : List ℕ :=
  (List.range count).map (fun i => e i % 2 ^ 122)

/-- The per-pass workload: `count` keys paired with `count` payloads of
`size` bytes each, payload `j` drawn from its own entropy stream `eD j`. -/
def workload (eK : ℕ → ℕ) (eD : ℕ → ℕ → ℕ) (count size : ℕ) :
    List (ℕ × List ℕ) :=
  (gen_uuid_keys eK count).zip
    ((List.range count).map (fun j => generate_test_data (eD j) size))

/-- The outcome of `s3.create_bucket` as seen by the caller
(src/s3bench.py, lines 27-33). -/
inductive CreateBucketOutcome where
  | success
  | bucketAlreadyExists
  | bucketAlreadyOwnedByYou
  | connectionError
  deriving DecidableEq

/-- The error conditions that can escape the bucket / directory setup. -/
inductive SetupError where
  | fatal
  deriving DecidableEq

/-- The `try: s3.create_bucket(...) except BucketAlreadyExists: ...
except BucketAlreadyOwnedByYou: ...` block of `benchmark_s3`
(src/s3bench.py, lines 27-33): both already-exists outcomes are caught
and only logged; anything else propagates. -/
def ensure_bucket (o : CreateBucketOutcome) : Except SetupError Unit :=
  match o with
  | .success => .ok ()
  | .bucketAlreadyExists => .ok ()
  | .bucketAlreadyOwnedByYou => .ok ()
  | .connectionError => .error .fatal

/-- `os.makedirs(path, exist_ok=...)`: raises `FileExistsError` only when
the directory exists and `exist_ok` is false. -/
def makedirs (dirExists okFlag : Bool) : Except SetupError Unit :=
  if dirExists && !okFlag then .error .fatal else .ok ()

/-- `os.makedirs(db_path, exist_ok=True)` in `benchmark_rocksdb`
(src/rocksbench.py, line 20). -/
def rocksdb_makedirs (dirExists : Bool) : Except SetupError Unit :=
  makedirs dirExists true

/-- Read results used by the concrete witnesses: five reads of one MiB
each, every latency exactly half a second. -/
def wreads5 : List ReadResult :=
  [⟨1048576, 1/2⟩, ⟨1048576, 1/2⟩, ⟨1048576, 1/2⟩, ⟨1048576, 1/2⟩,
   ⟨1048576, 1/2⟩]

/-- A concrete measurement environment: every pass takes 5 seconds of
write wall time and returns `wreads5` from the read phase. -/
def env5 : ℕ → ℚ × List ReadResult := fun _ => ((5 : ℚ), wreads5)

/-- Read results for the read-throughput counterexample: five reads of a
single byte each. -/
def c2reads : List ReadResult :=
  [⟨1, 1/2⟩, ⟨1, 1/2⟩, ⟨1, 1/2⟩, ⟨1, 1/2⟩, ⟨1, 1/2⟩]

theorem rhe_intCast (z : ℤ) : rhe (z : ℚ) = z := by
  have h : ((z : ℚ) - ⌊(z : ℚ)⌋ : ℚ) = 0 := by
    rw [Int.floor_intCast]; ring
  unfold rhe
  rw [h, Int.floor_intCast]
  norm_num

theorem round5_exact (q : ℚ) (z : ℤ) (h : q * 100000 = (z : ℚ)) :
    round5 q = (z : ℚ) / 100000 := by
  unfold round5
  rw [h, rhe_intCast]

theorem rhe_eq_floor (q : ℚ) (h : q - ⌊q⌋ < 1/2) : rhe q = ⌊q⌋ := by
  unfold rhe
  rw [if_pos h]

theorem rhe_eq_floor_add_one (q : ℚ) (h : 1/2 < q - ⌊q⌋) : rhe q = ⌊q⌋ + 1 := by
  unfold rhe
  rw [if_neg (by linarith), if_pos h]

theorem abs_rhe_sub_le (q : ℚ) : |((rhe q : ℤ) : ℚ) - q| ≤ 1/2 := by
  have h0 : ((⌊q⌋ : ℤ) : ℚ) ≤ q := Int.floor_le q
  have h1 : q < ((⌊q⌋ : ℤ) : ℚ) + 1 := Int.lt_floor_add_one q
  unfold rhe
  split_ifs with hlt hgt hev
  · rw [abs_le]; constructor <;> linarith
  · rw [abs_le]; push_cast; constructor <;> linarith
  · rw [abs_le]; constructor <;> linarith
  · rw [abs_le]; push_cast; constructor <;> linarith

theorem abs_round5_sub_le (q : ℚ) : |round5 q - q| ≤ 1/200000 := by
  have h := abs_rhe_sub_le (q * 100000)
  unfold round5
  have heq : ((rhe (q * 100000) : ℤ) : ℚ) / 100000 - q
      = (((rhe (q * 100000) : ℤ) : ℚ) - q * 100000) / 100000 := by ring
  rw [heq, abs_div]
  rw [show |(100000 : ℚ)| = 100000 from abs_of_pos (by norm_num)]
  linarith

theorem round5_zero : round5 0 = 0 := by
  rw [round5_exact 0 0 (by norm_num)]
  norm_num

theorem round5_fix (q : ℚ) (z : ℤ) (h : q * 100000 = (z : ℚ)) :
    round5 q = q := by
  rw [round5_exact q z h, ← h]
  field_simp

theorem rhe_eval_lo (q : ℚ) (z : ℤ) (h0 : (z : ℚ) ≤ q)
    (h1 : q < (z : ℚ) + 1/2) : rhe q = z := by
  have hf : ⌊q⌋ = z := Int.floor_eq_iff.mpr ⟨h0, by linarith⟩
  rw [rhe_eq_floor q (by rw [hf]; linarith), hf]

theorem rhe_eval_hi (q : ℚ) (z : ℤ) (h0 : (z : ℚ) + 1/2 < q)
    (h1 : q < (z : ℚ) + 1) : rhe q = z + 1 := by
  have hf : ⌊q⌋ = z := Int.floor_eq_iff.mpr ⟨by linarith, by linarith⟩
  rw [rhe_eq_floor_add_one q (by rw [hf]; linarith), hf]

theorem benchmark_rocksdb_ok_iff (sz : ℕ) (t : ℚ) (rds : List ReadResult)
    (m : PassMetrics) :
    benchmark_rocksdb sz t rds = .ok m ↔
      round5 t ≠ 0 ∧ rds ≠ [] ∧
      m = ⟨round5 t,
           round5 (((FILE_COUNT * (sz * 1024 * 1024) : ℕ) : ℚ)
             / round5 t / 1024 / 1024),
           round5 ((((rds.map ReadResult.dataLen).sum : ℕ) : ℚ)
             / round5 t / 1024 / 1024),
           round5 ((rds.map ReadResult.latency).sum / ((rds.length : ℕ) : ℚ))⟩ := by
  unfold benchmark_rocksdb pydiv
  by_cases h1 : round5 t = 0
  · simp [h1]
  · by_cases h2 : ((rds.length : ℕ) : ℚ) = 0
    · have hnil : rds = [] := by
        rw [Nat.cast_eq_zero, List.length_eq_zero] at h2
        exact h2
      simp [h1, h2, hnil]
    · have hne : rds ≠ [] := by
        intro hc
        rw [hc] at h2
        simp at h2
      simp only [h1, h2, if_neg, if_false, ite_false]
      constructor
      · intro h
        injection h with h
        exact ⟨h1, hne, h.symm⟩
      · rintro ⟨-, -, rfl⟩
        rfl

theorem benchmark_s3_pass_ok_iff (sz : ℕ) (t : ℚ) (rds : List ReadResult)
    (m : PassMetrics) :
    benchmark_s3_pass sz t rds = .ok m ↔
      t ≠ 0 ∧ rds ≠ [] ∧
      m = ⟨t,
           ((FILE_COUNT * (sz * 1024 * 1024) : ℕ) : ℚ) / t / 1024 / 1024,
           (((rds.map ReadResult.dataLen).sum : ℕ) : ℚ) / t / 1024 / 1024,
           (rds.map ReadResult.latency).sum / ((rds.length : ℕ) : ℚ)⟩ := by
  unfold benchmark_s3_pass pydiv
  by_cases h1 : t = 0
  · simp [h1]
  · by_cases h2 : ((rds.length : ℕ) : ℚ) = 0
    · have hnil : rds = [] := by
        rw [Nat.cast_eq_zero, List.length_eq_zero] at h2
        exact h2
      simp [h1, h2, hnil]
    · have hne : rds ≠ [] := by
        intro hc
        rw [hc] at h2
        simp at h2
      simp only [h1, h2, if_neg, if_false, ite_false]
      constructor
      · intro h
        injection h with h
        exact ⟨h1, hne, h.symm⟩
      · rintro ⟨-, -, rfl⟩
        rfl

theorem round5_five : round5 (5 : ℚ) = 5 :=
  round5_fix 5 500000 (by norm_num)

theorem round5_half : round5 (1/2 : ℚ) = 1/2 :=
  round5_fix (1/2) 50000 (by norm_num)

theorem round5_natCast (n : ℕ) : round5 ((n : ℕ) : ℚ) = (n : ℚ) :=
  round5_fix (n : ℚ) (n * 100000) (by push_cast; ring)

theorem wreads5_dataLen_sum : ((wreads5.map ReadResult.dataLen).sum : ℕ) = 5242880 := by
  decide

theorem wreads5_latency_sum : (wreads5.map ReadResult.latency).sum = 5/2 := by
  unfold wreads5
  norm_num

theorem wreads5_length : wreads5.length = 5 := by
  decide

theorem benchmark_rocksdb_clean (sz : ℕ) :
    benchmark_rocksdb sz 5 wreads5 = .ok ⟨5, (sz : ℚ), 1, 1/2⟩ := by
  rw [benchmark_rocksdb_ok_iff]
  rw [round5_five, wreads5_dataLen_sum, wreads5_latency_sum, wreads5_length]
  refine ⟨by norm_num, by simp [wreads5], ?_⟩
  have h1 : ((FILE_COUNT * (sz * 1024 * 1024) : ℕ) : ℚ) / 5 / 1024 / 1024
      = (sz : ℚ) := by
    unfold FILE_COUNT
    push_cast
    ring
  have h2 : ((5242880 : ℕ) : ℚ) / 5 / 1024 / 1024 = 1 := by norm_num
  have h3 : (5/2 : ℚ) / ((5 : ℕ) : ℚ) = 1/2 := by norm_num
  rw [h1, h2, h3, round5_natCast, round5_half]
  have h4 : round5 (1 : ℚ) = 1 := round5_fix 1 100000 (by norm_num)
  rw [h4]

theorem benchmark_s3_pass_clean (sz : ℕ) :
    benchmark_s3_pass sz 5 wreads5 = .ok ⟨5, (sz : ℚ), 1, 1/2⟩ := by
  rw [benchmark_s3_pass_ok_iff]
  rw [wreads5_dataLen_sum, wreads5_latency_sum, wreads5_length]
  refine ⟨by norm_num, by simp [wreads5], ?_⟩
  have h1 : ((FILE_COUNT * (sz * 1024 * 1024) : ℕ) : ℚ) / 5 / 1024 / 1024
      = (sz : ℚ) := by
    unfold FILE_COUNT
    push_cast
    ring
  have h2 : ((5242880 : ℕ) : ℚ) / 5 / 1024 / 1024 = 1 := by norm_num
  have h3 : (5/2 : ℚ) / ((5 : ℕ) : ℚ) = 1/2 := by norm_num
  rw [h1, h2, h3]

/-- C9: when the elapsed write time used as the throughput divisor is
exactly zero - in the Embedded-KV variant the divisor is the
5-digit-rounded elapsed time, so any raw elapsed time that rounds to 0.0
counts - the pass fails with the ZeroDivisionError arithmetic condition
instead of recording an infinite or undefined throughput. -/
theorem zero_upload_time_raises (szR szS : ℕ) (tR tS : ℚ)
    (rdsR rdsS : List ReadResult) (hR : round5 tR = 0) (hS : tS = 0) :
    benchmark_rocksdb szR tR rdsR = .error .zeroDivision ∧
    benchmark_s3_pass szS tS rdsS = .error .zeroDivision := by
  constructor
  · unfold benchmark_rocksdb pydiv
    simp [hR]
  · unfold benchmark_s3_pass pydiv
    simp [hS]

theorem zero_upload_time_raises_witness :
    round5 (1/1000000 : ℚ) = 0 ∧ ((0 : ℚ) = 0) ∧
    benchmark_rocksdb 60 (1/1000000) wreads5 = .error .zeroDivision ∧
    benchmark_s3_pass 60 0 wreads5 = .error .zeroDivision := by
  have h : round5 (1/1000000 : ℚ) = 0 := by
    unfold round5
    have he : (1/1000000 : ℚ) * 100000 = 1/10 := by norm_num
    rw [he, rhe_eval_lo (1/10 : ℚ) 0 (by norm_num) (by norm_num)]
    norm_num
  exact ⟨h, rfl,
    (zero_upload_time_raises 60 60 (1/1000000) 0 wreads5 wreads5 h rfl).1,
    (zero_upload_time_raises 60 60 (1/1000000) 0 wreads5 wreads5 h rfl).2⟩

/-- C3: in both variants the recorded write throughput is computed as
(N * S) / uploadTime converted to MiB/s, hence writeThroughput *
uploadTime * 1024 * 1024 recovers N * S: exactly in the Object-Storage
variant, and up to the 5-digit rounding of the recorded throughput in the
Embedded-KV variant, with the explicit error bound |uploadTime| * 2^20 /
(2 * 10^5) coming from rounding half a unit in the fifth decimal. -/
theorem write_throughput_times_upload_time (sz : ℕ) (tR tS : ℚ)
    (rdsR rdsS : List ReadResult) (mR mS : PassMetrics)
    (hR : benchmark_rocksdb sz tR rdsR = .ok mR)
    (hS : benchmark_s3_pass sz tS rdsS = .ok mS) :
    |mR.writeThroughput * mR.uploadTime * (1024 * 1024)
        - ((FILE_COUNT * (sz * 1024 * 1024) : ℕ) : ℚ)|
      ≤ |mR.uploadTime| * (1024 * 1024) / 200000 ∧
    mS.writeThroughput * mS.uploadTime * (1024 * 1024)
      = ((FILE_COUNT * (sz * 1024 * 1024) : ℕ) : ℚ) := by
  rw [benchmark_rocksdb_ok_iff] at hR
  rw [benchmark_s3_pass_ok_iff] at hS
  obtain ⟨ht, -, rfl⟩ := hR
  obtain ⟨hts, -, rfl⟩ := hS
  dsimp only
  constructor
  · set W : ℚ := ((FILE_COUNT * (sz * 1024 * 1024) : ℕ) : ℚ) with hW
    set t : ℚ := round5 tR with htdef
    set q : ℚ := W / t / 1024 / 1024 with hq
    have hqt : q * t * (1024 * 1024) = W := by
      rw [hq]
      field_simp
      ring
    have he := abs_round5_sub_le q
    have hsplit : round5 q * t * (1024 * 1024) - W
        = (round5 q - q) * (t * (1024 * 1024)) := by
      rw [← hqt]
      ring
    rw [hsplit, abs_mul]
    have habs : |t * (1024 * 1024)| = |t| * (1024 * 1024) := by
      rw [abs_mul]
      congr 1
      exact abs_of_pos (by norm_num)
    rw [habs]
    calc |round5 q - q| * (|t| * (1024 * 1024))
        ≤ (1/200000) * (|t| * (1024 * 1024)) := by
          apply mul_le_mul_of_nonneg_right he
          positivity
      _ = |t| * (1024 * 1024) / 200000 := by ring
  · field_simp
    ring

theorem write_throughput_times_upload_time_witness :
    benchmark_rocksdb 60 5 wreads5 = .ok ⟨5, 60, 1, 1/2⟩ ∧
    benchmark_s3_pass 60 5 wreads5 = .ok ⟨5, 60, 1, 1/2⟩ ∧
    (⟨5, 60, 1, 1/2⟩ : PassMetrics).writeThroughput *
        (⟨5, 60, 1, 1/2⟩ : PassMetrics).uploadTime * (1024 * 1024)
      = ((FILE_COUNT * (60 * 1024 * 1024) : ℕ) : ℚ) := by
  have h1 : benchmark_rocksdb 60 5 wreads5 = .ok ⟨5, 60, 1, 1/2⟩ := by
    have h := benchmark_rocksdb_clean 60
    norm_num at h
    exact h
  have h2 : benchmark_s3_pass 60 5 wreads5 = .ok ⟨5, 60, 1, 1/2⟩ := by
    have h := benchmark_s3_pass_clean 60
    norm_num at h
    exact h
  exact ⟨h1, h2,
    (write_throughput_times_upload_time 60 5 5 wreads5 wreads5 _ _ h1 h2).2⟩

/-- C1 counterexample: an Object-Storage pass whose raw elapsed write time
is 1/1024 s appends uploadTime exactly 1/1024 to the series, and 1/1024 is
not equal to round(1/1024, 5) = 0.00098, so the recorded value is not the
5-digit rounding of the computed value. -/
theorem s3_metrics_not_rounded_cex :
    benchmark_s3_pass 60 (1/1024) wreads5
      = .ok ⟨1/1024, 307200, 5120, 1/2⟩ ∧
    (1/1024 : ℚ) ≠ round5 (1/1024) := by
  constructor
  · rw [benchmark_s3_pass_ok_iff]
    rw [wreads5_dataLen_sum, wreads5_latency_sum, wreads5_length]
    refine ⟨by norm_num, by simp [wreads5], ?_⟩
    simp only [PassMetrics.mk.injEq]
    norm_num [FILE_COUNT]
  · have h : round5 (1/1024 : ℚ) = 49/50000 := by
      unfold round5
      have he : (1/1024 : ℚ) * 100000 = 3125/32 := by norm_num
      rw [he, rhe_eval_hi (3125/32 : ℚ) 97 (by norm_num) (by norm_num)]
      norm_num
    rw [h]
    norm_num

/-- C1 (amended): rounding to 5 fractional digits before recording happens
only in the Embedded-KV variant, where all four appended values are
round(x, 5) of the computed metrics (with the rounded upload time serving
as the throughput divisor); the Object-Storage variant appends the raw
computed values unrounded, the 5-digit formatting being applied only to
its printed and plotted labels. -/
theorem metrics_rounding_per_variant (sz : ℕ) (tR tS : ℚ)
    (rdsR rdsS : List ReadResult) (mR mS : PassMetrics)
    (hR : benchmark_rocksdb sz tR rdsR = .ok mR)
    (hS : benchmark_s3_pass sz tS rdsS = .ok mS) :
    (mR.uploadTime = round5 tR ∧
     mR.writeThroughput = round5 (((FILE_COUNT * (sz * 1024 * 1024) : ℕ) : ℚ)
       / mR.uploadTime / 1024 / 1024) ∧
     mR.readThroughput = round5 ((((rdsR.map ReadResult.dataLen).sum : ℕ) : ℚ)
       / mR.uploadTime / 1024 / 1024) ∧
     mR.avgLatency = round5 ((rdsR.map ReadResult.latency).sum
       / ((rdsR.length : ℕ) : ℚ))) ∧
    (mS.uploadTime = tS ∧
     mS.writeThroughput = ((FILE_COUNT * (sz * 1024 * 1024) : ℕ) : ℚ)
       / mS.uploadTime / 1024 / 1024 ∧
     mS.readThroughput = (((rdsS.map ReadResult.dataLen).sum : ℕ) : ℚ)
       / mS.uploadTime / 1024 / 1024 ∧
     mS.avgLatency = (rdsS.map ReadResult.latency).sum
       / ((rdsS.length : ℕ) : ℚ)) := by
  rw [benchmark_rocksdb_ok_iff] at hR
  rw [benchmark_s3_pass_ok_iff] at hS
  obtain ⟨-, -, rfl⟩ := hR
  obtain ⟨-, -, rfl⟩ := hS
  dsimp only
  exact ⟨⟨rfl, rfl, rfl, rfl⟩, ⟨rfl, rfl, rfl, rfl⟩⟩

theorem metrics_rounding_per_variant_witness :
    benchmark_rocksdb 60 5 wreads5 = .ok ⟨5, 60, 1, 1/2⟩ ∧
    benchmark_s3_pass 60 5 wreads5 = .ok ⟨5, 60, 1, 1/2⟩ ∧
    (⟨5, 60, 1, 1/2⟩ : PassMetrics).uploadTime = round5 5 ∧
    (⟨5, 60, 1, 1/2⟩ : PassMetrics).uploadTime = (5 : ℚ) := by
  have h1 : benchmark_rocksdb 60 5 wreads5 = .ok ⟨5, 60, 1, 1/2⟩ := by
    have h := benchmark_rocksdb_clean 60
    norm_num at h
    exact h
  have h2 : benchmark_s3_pass 60 5 wreads5 = .ok ⟨5, 60, 1, 1/2⟩ := by
    have h := benchmark_s3_pass_clean 60
    norm_num at h
    exact h
  exact ⟨h1, h2,
    (metrics_rounding_per_variant 60 5 5 wreads5 wreads5 _ _ h1 h2).1.1,
    (metrics_rounding_per_variant 60 5 5 wreads5 wreads5 _ _ h1 h2).2.1⟩

/-- C2 counterexample: an Embedded-KV pass with raw elapsed time 3 s and
five 1-byte reads records readThroughput 0 (the quotient rounds to 0 at 5
digits), while the unrounded quotient (sum of lengths) / uploadTime /
1024 / 1024 is 5/3145728, which is not 0: the recorded value is not the
plain quotient. -/
theorem read_throughput_exact_quotient_cex :
    benchmark_rocksdb 60 3 c2reads = .ok ⟨3, 100, 0, 1/2⟩ ∧
    (⟨3, 100, 0, 1/2⟩ : PassMetrics).readThroughput
      ≠ (((c2reads.map ReadResult.dataLen).sum : ℕ) : ℚ)
          / (⟨3, 100, 0, 1/2⟩ : PassMetrics).uploadTime / 1024 / 1024 := by
  have hr3 : round5 (3 : ℚ) = 3 := round5_fix 3 300000 (by norm_num)
  have hsum : ((c2reads.map ReadResult.dataLen).sum : ℕ) = 5 := by decide
  have hlat : (c2reads.map ReadResult.latency).sum = 5/2 := by
    unfold c2reads
    norm_num
  have hlen : c2reads.length = 5 := by decide
  constructor
  · rw [benchmark_rocksdb_ok_iff, hr3, hsum, hlat, hlen]
    have hwt : ((FILE_COUNT * (60 * 1024 * 1024) : ℕ) : ℚ) / 3 / 1024 / 1024
        = 100 := by
      norm_num [FILE_COUNT]
    have hrt : ((5 : ℕ) : ℚ) / 3 / 1024 / 1024 = 5/3145728 := by norm_num
    have hr0 : round5 (5/3145728 : ℚ) = 0 := by
      unfold round5
      have he : (5/3145728 : ℚ) * 100000 = 15625/98304 := by norm_num
      rw [he, rhe_eval_lo (15625/98304 : ℚ) 0 (by norm_num) (by norm_num)]
      norm_num
    have hav : (5/2 : ℚ) / ((5 : ℕ) : ℚ) = 1/2 := by norm_num
    have h100 : round5 (100 : ℚ) = 100 := round5_fix 100 10000000 (by norm_num)
    refine ⟨by norm_num, by simp [c2reads], ?_⟩
    rw [hwt, hrt, hr0, hav, round5_half, h100]
  · rw [hsum]
    dsimp only
    norm_num

/-- C2 (amended): in both variants the recorded read throughput is the sum
of the returned payload lengths divided by the recorded write-phase
uploadTime (not by a separate read-phase timer) and converted to MiB/s by
dividing by 1024*1024; the Embedded-KV variant additionally rounds this
quotient to 5 fractional digits before recording it, while the
Object-Storage variant records the quotient unrounded. -/
theorem read_throughput_uses_upload_time (sz : ℕ) (tR tS : ℚ)
    (rdsR rdsS : List ReadResult) (mR mS : PassMetrics)
    (hR : benchmark_rocksdb sz tR rdsR = .ok mR)
    (hS : benchmark_s3_pass sz tS rdsS = .ok mS) :
    mR.readThroughput = round5 ((((rdsR.map ReadResult.dataLen).sum : ℕ) : ℚ)
      / mR.uploadTime / 1024 / 1024) ∧
    mS.readThroughput = (((rdsS.map ReadResult.dataLen).sum : ℕ) : ℚ)
      / mS.uploadTime / 1024 / 1024 := by
  rw [benchmark_rocksdb_ok_iff] at hR
  rw [benchmark_s3_pass_ok_iff] at hS
  obtain ⟨-, -, rfl⟩ := hR
  obtain ⟨-, -, rfl⟩ := hS
  dsimp only
  exact ⟨rfl, rfl⟩

theorem read_throughput_uses_upload_time_witness :
    benchmark_rocksdb 60 5 wreads5 = .ok ⟨5, 60, 1, 1/2⟩ ∧
    benchmark_s3_pass 60 5 wreads5 = .ok ⟨5, 60, 1, 1/2⟩ ∧
    (⟨5, 60, 1, 1/2⟩ : PassMetrics).readThroughput
      = (((wreads5.map ReadResult.dataLen).sum : ℕ) : ℚ)
          / (⟨5, 60, 1, 1/2⟩ : PassMetrics).uploadTime / 1024 / 1024 := by
  have h1 : benchmark_rocksdb 60 5 wreads5 = .ok ⟨5, 60, 1, 1/2⟩ := by
    have h := benchmark_rocksdb_clean 60
    norm_num at h
    exact h
  have h2 : benchmark_s3_pass 60 5 wreads5 = .ok ⟨5, 60, 1, 1/2⟩ := by
    have h := benchmark_s3_pass_clean 60
    norm_num at h
    exact h
  exact ⟨h1, h2,
    (read_throughput_uses_upload_time 60 5 5 wreads5 wreads5 _ _ h1 h2).2⟩

/-- C5 counterexample: a payload of exactly 5 MiB (at most the chunk
threshold) is still written through the multipart path - as a one-part
multipart upload - not as a single non-multipart transfer; the script has
no non-multipart put call at all. -/
theorem small_put_still_multipart_cex :
    s3_put_method (5 * 1024 * 1024) ≠ UploadMethod.singlePut ∧
    s3_put_method (5 * 1024 * 1024) = UploadMethod.multipart 1 := by
  constructor <;> decide

/-- C5 (amended): the Object-Storage write path is unconditionally
multipart: `multipart_upload` is called for every payload, and a payload
of at least one byte and at most 5 MiB becomes a multipart upload with
exactly one part; no payload is ever written by a plain non-multipart
transfer. -/
theorem put_always_multipart (L : ℕ) (h1 : 1 ≤ L) (h2 : L ≤ part_size) :
    s3_put_method L = UploadMethod.multipart 1 ∧
    ∀ n : ℕ, s3_put_method n ≠ UploadMethod.singlePut := by
  have key : num_parts L part_size = 1 := by
    unfold num_parts part_size
    unfold part_size at h2
    rcases Nat.lt_or_ge L (5 * 1024 * 1024) with hlt | hge
    · have hd : L / (5 * 1024 * 1024) = 0 := Nat.div_eq_of_lt hlt
      have hm : L % (5 * 1024 * 1024) = L := Nat.mod_eq_of_lt hlt
      rw [hd, hm, if_pos (by omega)]
    · have hEq : L = 5 * 1024 * 1024 := by omega
      subst hEq
      norm_num
  constructor
  · unfold s3_put_method
    rw [key]
  · intro n h
    exact UploadMethod.noConfusion (h : UploadMethod.multipart _ = _)

theorem put_always_multipart_witness :
    (1 : ℕ) ≤ 1 ∧ (1 : ℕ) ≤ part_size ∧
    s3_put_method 1 = UploadMethod.multipart 1 :=
  ⟨le_refl 1, by decide, (put_always_multipart 1 (le_refl 1) (by decide)).1⟩

/-- C8: creating the storage container when it already exists is never
fatal: both already-exists outcomes of `s3.create_bucket` are caught by
the two except arms of benchmark_s3, and `os.makedirs(db_path,
exist_ok=True)` in benchmark_rocksdb succeeds whether or not the store
directory exists, so the run proceeds normally. -/
theorem already_exists_not_fatal :
    ensure_bucket .bucketAlreadyExists = .ok () ∧
    ensure_bucket .bucketAlreadyOwnedByYou = .ok () ∧
    ∀ dirExists : Bool, rocksdb_makedirs dirExists = .ok () := by
  refine ⟨rfl, rfl, ?_⟩
  intro d
  cases d <;> rfl

theorem already_exists_not_fatal_witness :
    rocksdb_makedirs true = .ok () ∧
    ensure_bucket .bucketAlreadyExists = .ok () :=
  ⟨already_exists_not_fatal.2.2 true, already_exists_not_fatal.1⟩

theorem takeWhile_genKey_block (n : ℕ) (rest : List BenchStep) :
    (List.replicate n BenchStep.genKey
        ++ BenchStep.startTimer :: rest).takeWhile isNotStart
      = List.replicate n BenchStep.genKey := by
  induction n with
  | zero => simp [List.takeWhile_cons, isNotStart]
  | succ n ih =>
      rw [List.replicate_succ, List.cons_append, List.takeWhile_cons]
      simp only [isNotStart, if_true]
      rw [ih]

theorem dropWhile_genKey_block (n : ℕ) (rest : List BenchStep) :
    (List.replicate n BenchStep.genKey
        ++ BenchStep.startTimer :: rest).dropWhile isNotStart
      = BenchStep.startTimer :: rest := by
  induction n with
  | zero => simp [List.dropWhile_cons, isNotStart]
  | succ n ih =>
      rw [List.replicate_succ, List.cons_append, List.dropWhile_cons]
      simp only [isNotStart, if_true]
      rw [ih]

theorem count_flatten_replicate (n : ℕ) (l : List BenchStep) (a : BenchStep) :
    ((List.replicate n l).flatten.count a) = n * l.count a := by
  induction n with
  | zero => simp
  | succ n ih =>
      rw [List.replicate_succ, List.flatten_cons, List.count_append, ih,
        Nat.succ_mul]
      omega

/-- C6 counterexample: with the configured FILE_COUNT of 5 files, the
part of the write-phase trace at or after the start timestamp contains
payload-generation steps in both variants (5 of them), so the full list
of (key, payload) pairs is not obtained before the write timer starts. -/
theorem generation_before_timer_cex :
    (timedSuffix (rocksWriteTrace FILE_COUNT)).count BenchStep.genPayload ≠ 0 ∧
    (timedSuffix (s3WriteTrace FILE_COUNT 12)).count BenchStep.genPayload ≠ 0 := by
  constructor <;> decide

/-- C6 (amended): the keys are all generated before the write start
timestamp - the trace prefix before the timer is exactly the n key
generations - but every payload is generated inside the timed region
(n genPayload steps in the timed suffix, one per put in the Embedded-KV
loop and one per multipart_upload call in the Object-Storage loop), so
uploadTime includes payload-generation time in both variants. -/
theorem payload_generation_inside_timed_region (n np : ℕ) :
    beforeTimer (rocksWriteTrace n) = List.replicate n BenchStep.genKey ∧
    (timedSuffix (rocksWriteTrace n)).count BenchStep.genPayload = n ∧
    (timedSuffix (rocksWriteTrace n)).count BenchStep.put = n ∧
    beforeTimer (s3WriteTrace n np) = List.replicate n BenchStep.genKey ∧
    (timedSuffix (s3WriteTrace n np)).count BenchStep.genPayload = n ∧
    (timedSuffix (s3WriteTrace n np)).count BenchStep.uploadPart = n * np := by
  unfold beforeTimer timedSuffix rocksWriteTrace s3WriteTrace
  simp only [List.append_assoc, List.cons_append, List.singleton_append]
  refine ⟨takeWhile_genKey_block n _, ?_, ?_,
          takeWhile_genKey_block n _, ?_, ?_⟩
  · rw [dropWhile_genKey_block n _]
    simp [List.count_cons, List.count_append, count_flatten_replicate]
  · rw [dropWhile_genKey_block n _]
    simp [List.count_cons, List.count_append, count_flatten_replicate]
  · rw [dropWhile_genKey_block n _]
    simp [s3FileTrace, List.count_cons, List.count_append,
      count_flatten_replicate, List.count_replicate]
  · rw [dropWhile_genKey_block n _]
    simp [s3FileTrace, List.count_cons, List.count_append,
      count_flatten_replicate, List.count_replicate, Nat.mul_comm]

theorem payload_generation_inside_timed_region_witness :
    beforeTimer (rocksWriteTrace 5) = List.replicate 5 BenchStep.genKey ∧
    (timedSuffix (rocksWriteTrace 5)).count BenchStep.genPayload = 5 :=
  ⟨(payload_generation_inside_timed_region 5 12).1,
   (payload_generation_inside_timed_region 5 12).2.1⟩

/-- C10 counterexample: nothing in the code enforces distinct uuid4 draws:
with an entropy source that yields the same 122-bit value twice, the two
generated keys are equal, so the keys of a pass are not guaranteed to be
pairwise distinct. -/
theorem workload_distinct_keys_cex :
    gen_uuid_keys (fun _ => 0) 2 = [0, 0] ∧
    ¬ (gen_uuid_keys (fun _ => 0) 2).Nodup := by
  constructor <;> decide

/-- C10 (amended): for every object count N and size S and any entropy
sources, the workload is exactly N (key, payload) pairs, every payload is
exactly S bytes, and the keys of the pairs are the N uuid4 draws; the
keys are pairwise distinct whenever the underlying 122-bit draws are
pairwise distinct, but the code does not enforce that condition. -/
theorem workload_shape (eK : ℕ → ℕ) (eD : ℕ → ℕ → ℕ) (N S : ℕ) :
    (workload eK eD N S).length = N ∧
    (∀ p ∈ workload eK eD N S, p.2.length = S) ∧
    (workload eK eD N S).map Prod.fst = gen_uuid_keys eK N ∧
    ((∀ i < N, ∀ j < N, i ≠ j → eK i % 2 ^ 122 ≠ eK j % 2 ^ 122) →
      (gen_uuid_keys eK N).Nodup) := by
  refine ⟨?_, ?_, ?_, ?_⟩
  · simp [workload, gen_uuid_keys, List.length_zip]
  · rintro ⟨a, b⟩ hp
    have h2 := (List.of_mem_zip hp).2
    rw [List.mem_map] at h2
    obtain ⟨j, -, hj⟩ := h2
    rw [← hj]
    simp [generate_test_data]
  · unfold workload
    apply List.map_fst_zip
    simp [gen_uuid_keys]
  · intro hinj
    unfold gen_uuid_keys
    apply List.Nodup.map_on
    · intro x hx y hy hxy
      by_contra hne
      exact hinj x (List.mem_range.mp hx) y (List.mem_range.mp hy) hne hxy
    · exact List.nodup_range N

theorem workload_shape_witness :
    (workload id (fun _ _ => 0) 2 1).length = 2 ∧
    (gen_uuid_keys id 2).Nodup := by
  refine ⟨(workload_shape id (fun _ _ => 0) 2 1).1,
    (workload_shape id (fun _ _ => 0) 2 1).2.2.2 ?_⟩
  decide

theorem find?_key_perm {b : Type} {l1 l2 : List (ℕ × b)} (h : l1.Perm l2)
    (i : ℕ) :
    (l1.map Prod.fst).Nodup →
      l1.find? (fun p => p.1 == i) = l2.find? (fun p => p.1 == i) := by
  induction h with
  | nil => intro _; rfl
  | cons x h ih =>
      intro hnd
      rw [List.map_cons, List.nodup_cons] at hnd
      rw [List.find?_cons, List.find?_cons]
      by_cases hx : (x.1 == i) = true
      · simp [hx]
      · simp only [Bool.not_eq_true] at hx
        rw [hx]
        exact ih hnd.2
  | swap x y l =>
      intro hnd
      rw [List.map_cons, List.map_cons, List.nodup_cons] at hnd
      have hne : y.1 ≠ x.1 := by
        intro he
        exact hnd.1 (by rw [he]; exact List.mem_cons_self _ _)
      rw [List.find?_cons, List.find?_cons, List.find?_cons, List.find?_cons]
      by_cases hyi : (y.1 == i) = true
      · have hy : y.1 = i := by rwa [beq_iff_eq] at hyi
        have hxi : (x.1 == i) = false := by
          rw [beq_eq_false_iff_ne]
          intro hx
          exact hne (by rw [hy, hx])
        simp [hyi, hxi]
      · simp only [Bool.not_eq_true] at hyi
        simp [hyi]
  | trans h1 h2 ih1 ih2 =>
      intro hnd
      rw [ih1 hnd, ih2 (((h1.map Prod.fst).nodup_iff).mp hnd)]

theorem find?_pairing (f : ℕ → PartReceipt) (l : List ℕ) (i : ℕ)
    (hi : i ∈ l) :
    (l.map (fun j => (j, f j))).find? (fun p => p.1 == i) = some (i, f i) := by
  induction l with
  | nil => cases hi
  | cons a l ih =>
      rw [List.map_cons, List.find?_cons]
      by_cases hai : (a == i) = true
      · have ha : a = i := by rwa [beq_iff_eq] at hai
        subst ha
        simp
      · have hai2 : (a == i) = false := by
          rwa [Bool.not_eq_true] at hai
        have hane : a ≠ i := beq_eq_false_iff_ne.mp hai2
        dsimp only
        rw [hai2]
        apply ih
        rcases List.mem_cons.mp hi with h | h
        · exact absurd h.symm hane
        · exact h

theorem submitted_futures_keys (n : ℕ) (etag : ℕ → ℕ) :
    (submitted_futures n etag).map Prod.fst = List.range n := by
  unfold submitted_futures
  rw [List.map_map]
  have hc : (Prod.fst ∘ fun i => (i, upload_part etag (i + 1))) = @id ℕ := by
    funext j
    rfl
  rw [hc, List.map_id]

theorem num_parts_le_mul (len : ℕ) :
    len ≤ num_parts len part_size * part_size := by
  unfold num_parts part_size
  split_ifs with h <;> omega

theorem num_parts_eq_ceil (len : ℕ) :
    num_parts len part_size = (len + part_size - 1) / part_size := by
  unfold num_parts part_size
  split_ifs with h <;> omega

theorem part_len_of_not_last (data : List ℕ) (i : ℕ)
    (h : i + 1 < num_parts data.length part_size) :
    ((data.drop (i * part_size)).take part_size).length = part_size := by
  unfold num_parts part_size at h
  unfold part_size
  rw [List.length_take, List.length_drop]
  apply min_eq_left
  by_cases hm : data.length % (5 * 1024 * 1024) = 0 <;> simp [hm] at h <;> omega

theorem flatten_slices (data : List ℕ) (ps : ℕ) (k : ℕ) :
    ((List.range k).map (fun i => (data.drop (i * ps)).take ps)).flatten
      = data.take (k * ps) := by
  induction k with
  | zero => simp
  | succ k ih =>
      rw [List.range_succ, List.map_append, List.flatten_append, ih,
        Nat.succ_mul, List.take_add]
      simp

theorem flatten_part_data_list (data : List ℕ) :
    (part_data_list data part_size).flatten = data := by
  unfold part_data_list
  rw [flatten_slices]
  exact List.take_of_length_le (num_parts_le_mul data.length)

theorem gathered_parts_eq (n : ℕ) (etag : ℕ → ℕ)
    (log : List (ℕ × PartReceipt))
    (hlog : log.Perm (submitted_futures n etag)) :
    gathered_parts n log
      = (List.range n).map (fun i => some (upload_part etag (i + 1))) := by
  unfold gathered_parts
  apply List.map_congr_left
  intro i hi
  unfold future_result
  have hnd : (log.map Prod.fst).Nodup := by
    apply ((hlog.map Prod.fst).nodup_iff).mpr
    rw [submitted_futures_keys]
    exact List.nodup_range n
  rw [find?_key_perm hlog i hnd]
  have hp := find?_pairing (fun j => upload_part etag (j + 1)) (List.range n) i hi
  unfold submitted_futures
  rw [hp]
  rfl

/-- C4: a chunked put of an L-byte payload (L ≥ 1) with the fixed 5 MiB
chunk size yields exactly ceil(L / 5MiB) chunks, every chunk except
possibly the last is exactly 5 MiB long, the in-order concatenation of
the chunks is the original payload byte for byte, and - for any executor
completion log that is a permutation of the submitted part futures, i.e.
regardless of the order in which the concurrent part uploads completed -
the receipts gathered for complete_multipart_upload are exactly the
submission-order receipts, whose part numbers are 1, 2, ..., n in
strictly ascending order. -/
theorem multipart_upload_correct (data : List ℕ) (etag : ℕ → ℕ)
    (log : List (ℕ × PartReceipt)) (hlen : 1 ≤ data.length)
    (hlog : log.Perm
      (submitted_futures (num_parts data.length part_size) etag)) :
    (part_data_list data part_size).length
        = (data.length + part_size - 1) / part_size ∧
    (∀ i (h : i < (part_data_list data part_size).length),
        i + 1 < num_parts data.length part_size →
        ((part_data_list data part_size).get ⟨i, h⟩).length = part_size) ∧
    (part_data_list data part_size).flatten = data ∧
    gathered_parts (num_parts data.length part_size) log
      = (List.range (num_parts data.length part_size)).map
          (fun i => some (upload_part etag (i + 1))) ∧
    (gathered_parts (num_parts data.length part_size) log).map
        (Option.map PartReceipt.partNumber)
      = (List.range (num_parts data.length part_size)).map
          (fun i => some (i + 1)) ∧
    List.Pairwise (fun a b => a < b)
      ((List.range (num_parts data.length part_size)).map (fun i => i + 1)) := by
  have hgath := gathered_parts_eq (num_parts data.length part_size) etag log hlog
  refine ⟨?_, ?_, flatten_part_data_list data, hgath, ?_, ?_⟩
  · unfold part_data_list
    rw [List.length_map, List.length_range]
    exact num_parts_eq_ceil data.length
  · intro i h hi
    simp only [part_data_list, List.get_eq_getElem, List.getElem_map,
      List.getElem_range]
    exact part_len_of_not_last data i hi
  · rw [hgath, List.map_map]
    apply List.map_congr_left
    intro a _
    rfl
  · rw [List.pairwise_map]
    exact (List.pairwise_lt_range _).imp (fun h => by omega)

theorem multipart_upload_correct_witness :
    1 ≤ ([7] : List ℕ).length ∧
    ([(0, (⟨1, 0⟩ : PartReceipt))]).Perm
      (submitted_futures (num_parts ([7] : List ℕ).length part_size)
        (fun _ => 0)) ∧
    (part_data_list [7] part_size).flatten = [7] ∧
    gathered_parts (num_parts ([7] : List ℕ).length part_size)
        [(0, (⟨1, 0⟩ : PartReceipt))]
      = (List.range (num_parts ([7] : List ℕ).length part_size)).map
          (fun i => some (upload_part (fun _ => 0) (i + 1))) := by
  have hperm : ([(0, (⟨1, 0⟩ : PartReceipt))]).Perm
      (submitted_futures (num_parts ([7] : List ℕ).length part_size)
        (fun _ => 0)) := by
    decide
  exact ⟨by decide, hperm,
    (multipart_upload_correct [7] (fun _ => 0) [(0, ⟨1, 0⟩)]
      (by decide) hperm).2.2.1,
    (multipart_upload_correct [7] (fun _ => 0) [(0, ⟨1, 0⟩)]
      (by decide) hperm).2.2.2.1⟩

theorem run_benchmarks_from_ok (env : ℕ → ℚ × List ReadResult) :
    ∀ (szs : List ℕ) (k : ℕ) (ms : MetricSeries),
      run_benchmarks_from env k szs = .ok ms →
      ms.upload_times.length = szs.length ∧
      ms.write_throughputs.length = szs.length ∧
      ms.read_throughputs.length = szs.length ∧
      ms.avg_latencies.length = szs.length ∧
      ∀ i sz, szs[i]? = some sz →
        ∃ m, benchmark_rocksdb sz (env (k + i)).1 (env (k + i)).2 = .ok m ∧
          ms.upload_times[i]? = some m.uploadTime ∧
          ms.write_throughputs[i]? = some m.writeThroughput ∧
          ms.read_throughputs[i]? = some m.readThroughput ∧
          ms.avg_latencies[i]? = some m.avgLatency := by
  intro szs
  induction szs with
  | nil =>
      intro k ms h
      simp only [run_benchmarks_from] at h
      injection h with h
      subst h
      refine ⟨rfl, rfl, rfl, rfl, ?_⟩
      intro i sz hsz
      simp at hsz
  | cons sz rest ih =>
      intro k ms h
      simp only [run_benchmarks_from] at h
      rcases hbm : benchmark_rocksdb sz (env k).1 (env k).2 with e | m
      · rw [hbm] at h
        simp at h
      · rw [hbm] at h
        rcases hrest : run_benchmarks_from env (k + 1) rest with e2 | ms2
        · rw [hrest] at h
          simp at h
        · rw [hrest] at h
          injection h with h
          subst h
          dsimp only
          obtain ⟨l1, l2, l3, l4, hidx⟩ := ih (k + 1) ms2 hrest
          refine ⟨by simp [l1], by simp [l2], by simp [l3], by simp [l4], ?_⟩
          intro i szi hszi
          cases i with
          | zero =>
              rw [List.getElem?_cons_zero] at hszi
              injection hszi with hszi
              subst hszi
              exact ⟨m, by simpa using hbm, by simp, by simp, by simp, by simp⟩
          | succ i =>
              rw [List.getElem?_cons_succ] at hszi
              obtain ⟨m2, hm2, p1, p2, p3, p4⟩ := hidx i szi hszi
              refine ⟨m2, ?_, by simpa using p1, by simpa using p2,
                by simpa using p3, by simpa using p4⟩
              have hk : k + (i + 1) = k + 1 + i := by omega
              rw [hk]
              exact hm2

theorem benchmark_s3_from_ok (env : ℕ → ℚ × List ReadResult) :
    ∀ (szs : List ℕ) (k : ℕ) (rs : S3Results),
      benchmark_s3_from env k szs = .ok rs →
      rs.file_size.length = szs.length ∧
      rs.upload_time.length = szs.length ∧
      rs.write_throughput.length = szs.length ∧
      rs.read_throughput.length = szs.length ∧
      rs.avg_latency.length = szs.length ∧
      ∀ i sz, szs[i]? = some sz →
        rs.file_size[i]? = some sz ∧
        ∃ m, benchmark_s3_pass sz (env (k + i)).1 (env (k + i)).2 = .ok m ∧
          rs.upload_time[i]? = some m.uploadTime ∧
          rs.write_throughput[i]? = some m.writeThroughput ∧
          rs.read_throughput[i]? = some m.readThroughput ∧
          rs.avg_latency[i]? = some m.avgLatency := by
  intro szs
  induction szs with
  | nil =>
      intro k rs h
      simp only [benchmark_s3_from] at h
      injection h with h
      subst h
      refine ⟨rfl, rfl, rfl, rfl, rfl, ?_⟩
      intro i sz hsz
      simp at hsz
  | cons sz rest ih =>
      intro k rs h
      simp only [benchmark_s3_from] at h
      rcases hbm : benchmark_s3_pass sz (env k).1 (env k).2 with e | m
      · rw [hbm] at h
        simp at h
      · rw [hbm] at h
        rcases hrest : benchmark_s3_from env (k + 1) rest with e2 | rs2
        · rw [hrest] at h
          simp at h
        · rw [hrest] at h
          injection h with h
          subst h
          dsimp only
          obtain ⟨l0, l1, l2, l3, l4, hidx⟩ := ih (k + 1) rs2 hrest
          refine ⟨by simp [l0], by simp [l1], by simp [l2], by simp [l3],
            by simp [l4], ?_⟩
          intro i szi hszi
          cases i with
          | zero =>
              rw [List.getElem?_cons_zero] at hszi
              injection hszi with hszi
              subst hszi
              exact ⟨by simp, m, by simpa using hbm, by simp, by simp,
                by simp, by simp⟩
          | succ i =>
              rw [List.getElem?_cons_succ] at hszi
              obtain ⟨p0, m2, hm2, p1, p2, p3, p4⟩ := hidx i szi hszi
              refine ⟨by simpa using p0, m2, ?_, by simpa using p1,
                by simpa using p2, by simpa using p3, by simpa using p4⟩
              have hk : k + (i + 1) = k + 1 + i := by omega
              rw [hk]
              exact hm2

/-- C7: for any environment in which both runs succeed, the four metric
lists (and the file_size list of the Object-Storage variant) all have
length equal to the number of configured SizeClasses, and for every index
i each list's i-th element is the corresponding metric of the pass run
for the i-th configured size - passes are processed in configuration
order with exactly one append to each list per pass. -/
theorem metric_series_parallel (envR envS : ℕ → ℚ × List ReadResult)
    (ms : MetricSeries) (rs : S3Results)
    (hR : run_benchmarks envR = .ok ms)
    (hS : benchmark_s3 envS = .ok rs) :
    (ms.upload_times.length = FILE_SIZES_MB.length ∧
     ms.write_throughputs.length = FILE_SIZES_MB.length ∧
     ms.read_throughputs.length = FILE_SIZES_MB.length ∧
     ms.avg_latencies.length = FILE_SIZES_MB.length ∧
     ∀ i sz, FILE_SIZES_MB[i]? = some sz →
       ∃ m, benchmark_rocksdb sz (envR i).1 (envR i).2 = .ok m ∧
         ms.upload_times[i]? = some m.uploadTime ∧
         ms.write_throughputs[i]? = some m.writeThroughput ∧
         ms.read_throughputs[i]? = some m.readThroughput ∧
         ms.avg_latencies[i]? = some m.avgLatency) ∧
    (rs.file_size.length = FILE_SIZES_MB.length ∧
     rs.upload_time.length = FILE_SIZES_MB.length ∧
     rs.write_throughput.length = FILE_SIZES_MB.length ∧
     rs.read_throughput.length = FILE_SIZES_MB.length ∧
     rs.avg_latency.length = FILE_SIZES_MB.length ∧
     ∀ i sz, FILE_SIZES_MB[i]? = some sz →
       rs.file_size[i]? = some sz ∧
       ∃ m, benchmark_s3_pass sz (envS i).1 (envS i).2 = .ok m ∧
         rs.upload_time[i]? = some m.uploadTime ∧
         rs.write_throughput[i]? = some m.writeThroughput ∧
         rs.read_throughput[i]? = some m.readThroughput ∧
         rs.avg_latency[i]? = some m.avgLatency) := by
  have h1 := run_benchmarks_from_ok envR FILE_SIZES_MB 0 ms hR
  have h2 := benchmark_s3_from_ok envS FILE_SIZES_MB 0 rs hS
  simp only [Nat.zero_add] at h1 h2
  exact ⟨h1, h2⟩

theorem run_benchmarks_env5 :
    run_benchmarks env5
      = .ok ⟨[5, 5, 5, 5, 5], [60, 100, 140, 180, 220],
             [1, 1, 1, 1, 1], [1/2, 1/2, 1/2, 1/2, 1/2]⟩ := by
  unfold run_benchmarks FILE_SIZES_MB
  simp only [run_benchmarks_from, env5, benchmark_rocksdb_clean]
  norm_num

theorem benchmark_s3_env5 :
    benchmark_s3 env5
      = .ok ⟨[60, 100, 140, 180, 220], [5, 5, 5, 5, 5],
             [60, 100, 140, 180, 220], [1, 1, 1, 1, 1],
             [1/2, 1/2, 1/2, 1/2, 1/2]⟩ := by
  unfold benchmark_s3 FILE_SIZES_MB
  simp only [benchmark_s3_from, env5, benchmark_s3_pass_clean]
  norm_num

theorem metric_series_parallel_witness :
    run_benchmarks env5
      = .ok ⟨[5, 5, 5, 5, 5], [60, 100, 140, 180, 220],
             [1, 1, 1, 1, 1], [1/2, 1/2, 1/2, 1/2, 1/2]⟩ ∧
    benchmark_s3 env5
      = .ok ⟨[60, 100, 140, 180, 220], [5, 5, 5, 5, 5],
             [60, 100, 140, 180, 220], [1, 1, 1, 1, 1],
             [1/2, 1/2, 1/2, 1/2, 1/2]⟩ ∧
    (⟨[5, 5, 5, 5, 5], [60, 100, 140, 180, 220], [1, 1, 1, 1, 1],
      [1/2, 1/2, 1/2, 1/2, 1/2]⟩ : MetricSeries).upload_times.length
        = FILE_SIZES_MB.length ∧
    (⟨[60, 100, 140, 180, 220], [5, 5, 5, 5, 5], [60, 100, 140, 180, 220],
      [1, 1, 1, 1, 1], [1/2, 1/2, 1/2, 1/2, 1/2]⟩ : S3Results).file_size.length
        = FILE_SIZES_MB.length :=
  ⟨run_benchmarks_env5, benchmark_s3_env5,
   (metric_series_parallel env5 env5 _ _ run_benchmarks_env5
     benchmark_s3_env5).1.1,
   (metric_series_parallel env5 env5 _ _ run_benchmarks_env5
     benchmark_s3_env5).2.1⟩
